import Mathlib

/-!
Shallow embedding of the change-tracking core of `pyrandr/randr.py`:
the `Screen` aggregate with its per-field change table, the staged
setters, `build_cmd` (command compilation) and `apply_settings`.

Conventions of the embedding:
- Python exceptions become the `PyErr` inductive; a raised `ValueError`
  carries its message string so distinct error conditions stay distinct.
- Mutating methods are state transformers `Screen → ... → res × Screen`;
  the returned `Screen` is the object's state when the method returns or
  raises (the Python methods mutate nothing before their raise points).
- `Mode.freq` (a float) is omitted: no modeled operation reads it.
- The stored rotation value is `Option Int` (Python: `None` or an angle
  int), the stored position is `Option (Int × String)` (Python: `None`
  or a `(relation, relative_to)` tuple).
-/

set_option autoImplicit false

namespace Pyrandr

/-- Python exceptions raised on the embedded code paths; `valueError`
keeps the message of the corresponding `raise` statement. `keyError` is
a failed dict lookup, `typeError` a failed tuple unpacking, and
`calledProcessError` the failure of the external `xrandr` process. -/
inductive PyErr where
  | valueError (msg : String)
  | keyError
  | typeError
  | calledProcessError
deriving DecidableEq

/-- One supported display mode (class `Mode`). The float refresh rate is
omitted: none of the modeled operations reads it. -/
structure Mode where
  width : Nat
  height : Nat
  current : Bool
  preferred : Bool
deriving DecidableEq

/-- `Mode.resolution()` without the string flag. -/
def Mode.resolution (m : Mode) : Nat × Nat :=
  (m.width, m.height)

/-- The `change_table` dict of `ScreenSettings`: one Boolean per key, in
the source's key set (including the never-set `dirty` and `is_connected`
keys, which still participate in `True in values()`). -/
structure ChangeTable where
  resolution : Bool
  is_primary : Bool
  is_enabled : Bool
  rotation : Bool
  position : Bool
  dirty : Bool
  is_connected : Bool
deriving DecidableEq

/-- `True in self.__set.change_table.values()`. -/
def anyChanged (ct : ChangeTable) : Bool :=
  ct.resolution || ct.is_primary || ct.is_enabled || ct.rotation ||
    ct.position || ct.dirty || ct.is_connected

/-- The all-clean change table (every value `False`). -/
def cleanTable : ChangeTable :=
  ⟨false, false, false, false, false, false, false⟩

/-- Class `ScreenSettings` (the unused scalar `dirty = None` attribute is
omitted; the `"dirty"` key of the change table is kept). -/
structure ScreenSettings where
  resolution : Nat × Nat
  is_primary : Bool
  is_enabled : Bool
  rotation : Option Int
  position : Option (Int × String)
  is_connected : Bool
  change_table : ChangeTable
deriving DecidableEq

/-- Class `Screen`: name, settings (the mangled `__set`), mode list and
current mode. -/
structure Screen where
  name : String
  settings : ScreenSettings
  supported_modes : List Mode
  curr_mode : Option Mode
deriving DecidableEq

/-- Property `Screen.is_enabled`. -/
def Screen.is_enabled (s : Screen) : Bool :=
  s.settings.is_enabled

/-- Property `Screen.is_primary`. -/
def Screen.is_primary (s : Screen) : Bool :=
  s.settings.is_primary

/-- Setter of `Screen.is_enabled`: on a differing value, flip the stored
flag and toggle the change-table entry. -/
def Screen.set_is_enabled (s : Screen) (enable : Bool) : Screen :=
  if enable ≠ s.settings.is_enabled then
    { s with settings := { s.settings with
        is_enabled := !s.settings.is_enabled,
        change_table := { s.settings.change_table with
          is_enabled := !s.settings.change_table.is_enabled } } }
  else s

/-- Setter of `Screen.is_primary`: same flip-and-toggle pattern. -/
def Screen.set_is_primary (s : Screen) (is_primary : Bool) : Screen :=
  if is_primary ≠ s.settings.is_primary then
    { s with settings := { s.settings with
        is_primary := !s.settings.is_primary,
        change_table := { s.settings.change_table with
          is_primary := !s.settings.change_table.is_primary } } }
  else s

/-- `Screen.available_resolutions()` (tuple form). -/
def Screen.available_resolutions (s : Screen) : List (Nat × Nat) :=
  s.supported_modes.map Mode.resolution

/-- `Screen.check_resolution`: raise `ValueError` when the requested
resolution is not among the supported ones. -/
def Screen.check_resolution (s : Screen) (newres : Nat × Nat) :
    Except PyErr Unit :=
  if newres ∉ s.available_resolutions then
    .error (.valueError "Requested resolution is not supported")
  else .ok ()

/-- The screen produced by the success branch of the resolution setter:
`newres` stored and its change-table entry set (named here so proofs can
refer to it). -/
def stagedRes (s : Screen) (newres : Nat × Nat) : Screen :=
  { s with settings := { s.settings with
      resolution := newres,
      change_table := { s.settings.change_table with
        resolution := true } } }

/-- Setter of `Screen.resolution`: raise if the screen is off and not
being re-enabled; on a differing value check it (unless `custom`), store
it and set the change-table entry to `True`. -/
def Screen.set_resolution (s : Screen) (newres : Nat × Nat)
    (custom : Bool) : Except PyErr Unit × Screen :=
  if s.is_enabled = false ∧ s.settings.change_table.is_enabled = false then
    (.error (.valueError "The Screen is off"), s)
  else if newres ≠ s.settings.resolution then
    if custom = false ∧ newres ∉ s.available_resolutions then
      (.error (.valueError "Requested resolution is not supported"), s)
    else
      (.ok (), stagedRes s newres)
  else (.ok (), s)

/-- Setter of `Screen.rotation`: on a differing value, store it and set
the change-table entry to `True`. No enablement check, no validation. -/
def Screen.set_rotation (s : Screen) (direction : Option Int) : Screen :=
  if direction ≠ s.settings.rotation then
    { s with settings := { s.settings with
        rotation := direction,
        change_table := { s.settings.change_table with
          rotation := true } } }
  else s

/-- Setter of `Screen.position`: on a differing value, store it and set
the change-table entry to `True`. No validation of the arguments. -/
def Screen.set_position (s : Screen) (args : Option (Int × String)) :
    Screen :=
  if args ≠ s.settings.position then
    { s with settings := { s.settings with
        position := args,
        change_table := { s.settings.change_table with
          position := true } } }
  else s

/-- `RotateDirection.by_direction`: angle to canonical name. A missing
key is a `KeyError` (`none`). -/
def by_direction : Option Int → Option String
  | some 0 => some "normal"
  | some 90 => some "left"
  | some 180 => some "inverted"
  | some 270 => some "right"
  | _ => none

/-- `PostitonType.by_position`: relation value to command token. A
missing key is a `KeyError` (`none`). -/
def by_position : Int → Option String
  | 1 => some "--left-of"
  | 2 => some "--right-of"
  | 3 => some "--above"
  | 4 => some "--below"
  | 5 => some "--same-as"
  | _ => none

/-- `'{0}x{1}'.format(*resolution)`. -/
def fmtRes (r : Nat × Nat) : String :=
  toString r.1 ++ "x" ++ toString r.2

/-- The resolution and primary blocks of `build_cmd`: start from
`['xrandr', '--output', name]`; append `--mode <w>x<h>` when the screen
is enabled and the resolution entry is dirty, otherwise `--auto`; then
append `--primary` when the primary entry is dirty and the resulting
primary state is true. -/
def headCmd (s : Screen) : List String :=
  let cmd0 := ["xrandr", "--output", s.name]
  let cmd1 :=
    if s.is_enabled && s.settings.change_table.resolution then
      cmd0 ++ ["--mode", fmtRes s.settings.resolution]
    else cmd0 ++ ["--auto"]
  if s.settings.change_table.is_primary && s.is_primary then
    cmd1 ++ ["--primary"]
  else cmd1

/-- The rotation block of `build_cmd`: when the rotation entry is dirty,
look the stored value up in `by_direction` (`KeyError` when absent; the
`if not rot` `ValueError` guard is kept although every table value is a
non-empty string) and append `--rotate <name>`. -/
def rotStep (s : Screen) (cmd : List String) : Except PyErr (List String) :=
  if s.settings.change_table.rotation then
    match by_direction s.settings.rotation with
    | none => .error .keyError
    | some rot =>
      if rot = "" then .error (.valueError "Invalid rotation value")
      else .ok (cmd ++ ["--rotate", rot])
  else .ok cmd

/-- The position block of `build_cmd`: when the position entry is dirty,
unpack the stored pair (`TypeError` on `None`), look the relation up in
`by_position` (`KeyError` when absent) and append `<token> <rel_to>`. -/
def posStep (s : Screen) (cmd : List String) : Except PyErr (List String) :=
  if s.settings.change_table.position then
    match s.settings.position with
    | none => .error .typeError
    | some (rel, rel_to) =>
      match by_position rel with
      | none => .error .keyError
      | some relTok => .ok (cmd ++ [relTok, rel_to])
  else .ok cmd

/-- `Screen.build_cmd`: `.ok none` models the Python `return False` (no
pending change); `.ok (some cmd)` a built command; `.error e` a raise.
The second component is the object's state afterwards. -/
def Screen.build_cmd (s : Screen) :
    Except PyErr (Option (List String)) × Screen :=
  if anyChanged s.settings.change_table then
    if s.name = "" then
      (.error (.valueError "Cannot apply settings without screen name"), s)
    else
      if s.settings.change_table.is_enabled && !s.is_enabled then
        (.ok (some (["xrandr", "--output", s.name] ++ ["--off"])), s)
      else
        match rotStep s (headCmd s) with
        | .error e => (.error e, s)
        | .ok cmd3 =>
          match posStep s cmd3 with
          | .error e => (.error e, s)
          | .ok cmd4 => (.ok (some cmd4), s)
  else (.ok none, s)

/-- Reset every change-table entry to `False` (the loop at the end of
`apply_settings`). -/
def resetTable (s : Screen) : Screen :=
  { s with settings := { s.settings with change_table := cleanTable } }

/-- `Screen.apply_settings`. The external executor is abstracted by the
Boolean `execOk` (`sb.check_output` succeeds or raises
`CalledProcessError`); the third component records the commands actually
handed to the executor, in order. On a raise, the change table has not
been reset. -/
def Screen.apply_settings (s : Screen) (execOk : Bool) (dflt : Bool) :
    Except PyErr Unit × Screen × List (List String) :=
  if dflt then
    if execOk then
      (.ok (), resetTable s, [["xrandr", "--output", s.name, "--auto"]])
    else
      (.error .calledProcessError, s,
        [["xrandr", "--output", s.name, "--auto"]])
  else
    if anyChanged s.settings.change_table then
      match (s.build_cmd).1 with
      | .error e => (.error e, s, [])
      | .ok none => (.error .typeError, s, [])
      | .ok (some cmd) =>
        if execOk then (.ok (), resetTable s, [cmd])
        else (.error .calledProcessError, s, [cmd])
    else (.ok (), resetTable s, [])

/-! Concrete screens used by the closed instances below. -/

/-- A 1920x1080 mode, current and preferred. -/
def modeFHD : Mode := ⟨1920, 1080, true, true⟩

/-- A 1280x720 mode, neither current nor preferred. -/
def modeHD : Mode := ⟨1280, 720, false, false⟩

/-- An enabled, clean screen named HDMI2 at 1920x1080, rotation normal. -/
def hdmi2 : Screen :=
  { name := "HDMI2"
    settings :=
      { resolution := (1920, 1080), is_primary := false, is_enabled := true
        rotation := some 0, position := none, is_connected := true
        change_table := cleanTable }
    supported_modes := [modeFHD, modeHD]
    curr_mode := some modeFHD }

/-- A screen staged to turn off while several other fields are also
dirty (with staged values that could not even compile on their own). -/
def vga1Off : Screen :=
  { name := "VGA1"
    settings :=
      { resolution := (640, 480), is_primary := true, is_enabled := false
        rotation := none, position := some (9, "HDMI2"), is_connected := true
        change_table :=
          { resolution := true, is_primary := true, is_enabled := true
            rotation := true, position := true, dirty := false
            is_connected := false } }
    supported_modes := [modeFHD]
    curr_mode := none }

/-- A disabled, clean screen (no mode is current). -/
def lvds1Off : Screen :=
  { name := "LVDS1"
    settings :=
      { resolution := (0, 0), is_primary := false, is_enabled := false
        rotation := some 0, position := none, is_connected := true
        change_table := cleanTable }
    supported_modes := [modeFHD, modeHD]
    curr_mode := none }

/-- Every name in the rotation table is non-empty, so the `if not rot`
guard of `build_cmd` can never fire. -/
theorem by_direction_ne_empty (r : Option Int) (n : String)
    (h : by_direction r = some n) : n ≠ "" := by
  unfold by_direction at h
  split at h
  · exact fun he => absurd ((Option.some.inj h).trans he) (by decide)
  · exact fun he => absurd ((Option.some.inj h).trans he) (by decide)
  · exact fun he => absurd ((Option.some.inj h).trans he) (by decide)
  · exact fun he => absurd ((Option.some.inj h).trans he) (by decide)
  · exact Option.noConfusion h

/-- When the rotation entry is clean, or dirty with a value that the
table resolves, the rotation block only appends to the command. -/
theorem rotStep_appends (s : Screen) (cmd : List String)
    (hrot : s.settings.change_table.rotation = true →
      ∃ n, by_direction s.settings.rotation = some n ∧ n ≠ "") :
    ∃ tail, rotStep s cmd = .ok (cmd ++ tail) := by
  unfold rotStep
  by_cases h : s.settings.change_table.rotation = true
  · obtain ⟨n, h1, h2⟩ := hrot h
    exact ⟨["--rotate", n], by simp [h, h1, h2]⟩
  · exact ⟨[], by simp [h]⟩

/-- When the position entry is clean, or dirty with a stored pair whose
relation the table resolves, the position block only appends. -/
theorem posStep_appends (s : Screen) (cmd : List String)
    (hpos : s.settings.change_table.position = true →
      ∃ rel rel_to, s.settings.position = some (rel, rel_to) ∧
        (by_position rel).isSome) :
    ∃ tail, posStep s cmd = .ok (cmd ++ tail) := by
  unfold posStep
  by_cases h : s.settings.change_table.position = true
  · obtain ⟨rel, rel_to, h1, h2⟩ := hpos h
    obtain ⟨tok, htok⟩ := Option.isSome_iff_exists.mp h2
    exact ⟨[tok, rel_to], by simp [h, h1, htok]⟩
  · exact ⟨[], by simp [h]⟩

/-- On a dirty screen with a name that is not being turned off,
`build_cmd` returns the command assembled by the head, rotation and
position blocks when the two fallible blocks succeed. -/
theorem build_cmd_not_off_ok (s : Screen)
    (hany : anyChanged s.settings.change_table = true)
    (hn : s.name ≠ "")
    (hto : (s.settings.change_table.is_enabled && !s.is_enabled) = false)
    (c3 c4 : List String)
    (hr : rotStep s (headCmd s) = .ok c3)
    (hp : posStep s c3 = .ok c4) :
    (s.build_cmd).1 = .ok (some c4) := by
  unfold Screen.build_cmd
  rw [if_pos hany, if_neg hn, if_neg (by simp [hto]), hr]
  simp [hp]

/-- On a dirty screen with a name that is not being turned off, a raise
in the rotation block propagates out of `build_cmd`. -/
theorem build_cmd_rot_err (s : Screen)
    (hany : anyChanged s.settings.change_table = true)
    (hn : s.name ≠ "")
    (hto : (s.settings.change_table.is_enabled && !s.is_enabled) = false)
    (e : PyErr) (hr : rotStep s (headCmd s) = .error e) :
    (s.build_cmd).1 = .error e := by
  unfold Screen.build_cmd
  rw [if_pos hany, if_neg hn, if_neg (by simp [hto]), hr]

/-- On an enabled screen with a dirty resolution entry, the head blocks
start with `xrandr --output <name> --mode <w>x<h>`. -/
theorem headCmd_mode (s : Screen) (hen : s.settings.is_enabled = true)
    (hres : s.settings.change_table.resolution = true) :
    ∃ tail, headCmd s =
      ["xrandr", "--output", s.name, "--mode",
        fmtRes s.settings.resolution] ++ tail := by
  by_cases h : (s.settings.change_table.is_primary && s.is_primary) = true
  · exact ⟨["--primary"], by simp [headCmd, Screen.is_enabled, hen, hres, h]⟩
  · exact ⟨[], by simp [headCmd, Screen.is_enabled, hen, hres, h]⟩

/-- The rotation block on a dirty, resolvable rotation. -/
theorem rotStep_resolved (s : Screen) (cmd : List String) (n : String)
    (hd : s.settings.change_table.rotation = true)
    (h : by_direction s.settings.rotation = some n) (hne : n ≠ "") :
    rotStep s cmd = .ok (cmd ++ ["--rotate", n]) := by
  simp [rotStep, hd, h, hne]

/-- The rotation block on a dirty, unresolvable rotation: the dict
lookup fails. -/
theorem rotStep_unresolved (s : Screen) (cmd : List String)
    (hd : s.settings.change_table.rotation = true)
    (h : by_direction s.settings.rotation = none) :
    rotStep s cmd = .error .keyError := by
  simp [rotStep, hd, h]

/-- Claim C1: when the enabled flag is dirty and the resulting enabled
state is false, `build_cmd` yields exactly
`["xrandr", "--output", name, "--off"]`, whatever else is dirty: the
other staged changes are dropped, never combined and never rejected. -/
theorem c1_off_drops_other_changes (s : Screen)
    (h1 : s.settings.change_table.is_enabled = true)
    (h2 : s.settings.is_enabled = false) (hn : s.name ≠ "") :
    (s.build_cmd).1 = .ok (some ["xrandr", "--output", s.name, "--off"]) := by
  simp [Screen.build_cmd, anyChanged, Screen.is_enabled, h1, h2, hn]

/-- Witness for C1: a screen turning off with resolution, primary,
rotation and position all dirty (the staged rotation would not even
resolve) still compiles to exactly the off command. -/
theorem c1_off_drops_other_changes_witness :
    vga1Off.settings.change_table.is_enabled = true
    ∧ vga1Off.settings.is_enabled = false
    ∧ vga1Off.settings.change_table.rotation = true
    ∧ vga1Off.settings.change_table.resolution = true
    ∧ (vga1Off.build_cmd).1 =
        .ok (some ["xrandr", "--output", "VGA1", "--off"]) :=
  ⟨rfl, rfl, rfl, rfl,
    c1_off_drops_other_changes vga1Off rfl rfl (by decide)⟩

/-- Claim C4: on clean screen HDMI2, staging rotation Left (angle 90)
then position RightOf HDMI1 (relation value 2) compiles to exactly
`xrandr --output HDMI2 --auto --rotate left --right-of HDMI1`. -/
theorem c4_rotate_position_example :
    (((hdmi2.set_rotation (some 90)).set_position
        (some (2, "HDMI1"))).build_cmd).1 =
      .ok (some ["xrandr", "--output", "HDMI2", "--auto", "--rotate",
        "left", "--right-of", "HDMI1"]) := by
  rfl

/-- Claim C9: assigning any staged field its current staged value leaves
the whole screen state unchanged, so in particular no dirty flag is set;
for the resolution setter this also holds on the error path (a disabled
screen), where the raise happens before any mutation. The C9 example is
the `set_is_enabled` conjunct at an already-disabled screen. -/
theorem c9_noop_assignment_keeps_state (s : Screen) (c : Bool) :
    s.set_is_enabled s.settings.is_enabled = s
    ∧ s.set_is_primary s.settings.is_primary = s
    ∧ s.set_rotation s.settings.rotation = s
    ∧ s.set_position s.settings.position = s
    ∧ (s.set_resolution s.settings.resolution c).2 = s := by
  refine ⟨?_, ?_, ?_, ?_, ?_⟩
  · simp [Screen.set_is_enabled]
  · simp [Screen.set_is_primary]
  · simp [Screen.set_rotation]
  · simp [Screen.set_position]
  · unfold Screen.set_resolution
    split
    · rfl
    · split
      · simp_all
      · rfl

/-- Claim C10: `build_cmd` never mutates the screen, on every path —
command built, no-changes result, or raise. -/
theorem c10_build_cmd_pure (s : Screen) : (s.build_cmd).2 = s := by
  unfold Screen.build_cmd
  repeat' split
  all_goals rfl

/-- Claim C2: with no dirty field, `apply_settings` (non-default) calls
the executor zero times; with a dirty field and a compilable command it
calls it exactly once with that command; on executor success every dirty
flag is reset and an immediate `build_cmd` reports no changes; on
executor failure the failure propagates and the screen, dirty flags
included, is exactly as before. -/
theorem c2_apply_settings_contract (s : Screen) :
    (anyChanged s.settings.change_table = false →
      ∀ ok, (s.apply_settings ok false).2.2 = [])
    ∧ (∀ cmd, anyChanged s.settings.change_table = true →
        (s.build_cmd).1 = .ok (some cmd) →
        ((s.apply_settings true false).1 = .ok ()
          ∧ (s.apply_settings true false).2.2 = [cmd]
          ∧ (s.apply_settings true false).2.1.settings.change_table =
              cleanTable
          ∧ ((s.apply_settings true false).2.1.build_cmd).1 = .ok none)
        ∧ ((s.apply_settings false false).1 = .error .calledProcessError
          ∧ (s.apply_settings false false).2.1 = s
          ∧ (s.apply_settings false false).2.2 = [cmd])) := by
  constructor
  · intro h ok
    simp [Screen.apply_settings, h]
  · intro cmd hd hb
    have hclean : ((resetTable s).build_cmd).1 = .ok none := by
      simp [Screen.build_cmd, resetTable, anyChanged, cleanTable]
    have hct : (resetTable s).settings.change_table = cleanTable := rfl
    simp [Screen.apply_settings, hd, hb, hclean, hct]

/-- Witness for C2 at a screen with a staged rotation: one executor call
carrying the compiled command, clean table afterwards, no-changes on
recompile; on failure the screen is untouched; and a clean screen makes
no executor call. -/
theorem c2_apply_settings_contract_witness :
    ((hdmi2.set_rotation (some 90)).apply_settings true false).2.2 =
      [["xrandr", "--output", "HDMI2", "--auto", "--rotate", "left"]]
    ∧ (((hdmi2.set_rotation (some 90)).apply_settings true
          false).2.1.build_cmd).1 = .ok none
    ∧ ((hdmi2.set_rotation (some 90)).apply_settings false false).2.1 =
        hdmi2.set_rotation (some 90)
    ∧ (hdmi2.apply_settings true false).2.2 = [] := by
  refine ⟨?_, ?_, ?_, ?_⟩
  · exact ((c2_apply_settings_contract
      (hdmi2.set_rotation (some 90))).2 _ rfl rfl).1.2.1
  · exact ((c2_apply_settings_contract
      (hdmi2.set_rotation (some 90))).2 _ rfl rfl).1.2.2.2
  · exact ((c2_apply_settings_contract
      (hdmi2.set_rotation (some 90))).2 _ rfl rfl).2.2.1
  · exact (c2_apply_settings_contract hdmi2).1 rfl true

/-- Counterexample to claim C3: staging the rotation of HDMI2 away from
normal (0) and then back to 0 leaves the rotation dirty flag set — the
rotation setter only ever writes `True` into the change table, so dirty
tracking for rotation (and resolution and position alike) is not a diff
against the current value. -/
theorem c3_cex_rotation_flag_sticks :
    hdmi2.settings.rotation = some 0
    ∧ hdmi2.settings.change_table.rotation = false
    ∧ (hdmi2.set_rotation (some 90)).settings.change_table.rotation = true
    ∧ ((hdmi2.set_rotation (some 90)).set_rotation
        (some 0)).settings.rotation = some 0
    ∧ ((hdmi2.set_rotation (some 90)).set_rotation
        (some 0)).settings.change_table.rotation = true :=
  ⟨rfl, rfl, rfl, rfl, rfl⟩

/-- Claim C3 as amended: the diff-against-current rule holds for the two
Boolean fields only — staging `is_enabled` or `is_primary` and staging
it back restores the dirty flag (and the value); for rotation, position
and resolution any differing assignment writes `True` into the change
table and assigning the old value back leaves the flag set. -/
theorem c3_amended_dirty_tracking (s : Screen) (v p : Bool)
    (d : Option Int) (pos : Option (Int × String)) :
    (((s.set_is_enabled v).set_is_enabled
        s.settings.is_enabled).settings.change_table.is_enabled =
      s.settings.change_table.is_enabled)
    ∧ (((s.set_is_primary p).set_is_primary
        s.settings.is_primary).settings.change_table.is_primary =
      s.settings.change_table.is_primary)
    ∧ (d ≠ s.settings.rotation →
        ((s.set_rotation d).set_rotation
          s.settings.rotation).settings.change_table.rotation = true)
    ∧ (pos ≠ s.settings.position →
        ((s.set_position pos).set_position
          s.settings.position).settings.change_table.position = true)
    ∧ (∀ r, s.settings.is_enabled = true → r ≠ s.settings.resolution →
        (((s.set_resolution r true).2.set_resolution
          s.settings.resolution true).2.settings.change_table.resolution =
            true)) := by
  refine ⟨?_, ?_, ?_, ?_, ?_⟩
  · by_cases hv : v = s.settings.is_enabled
    · simp [Screen.set_is_enabled, hv]
    · simp [Screen.set_is_enabled, hv]
  · by_cases hp : p = s.settings.is_primary
    · simp [Screen.set_is_primary, hp]
    · simp [Screen.set_is_primary, hp]
  · intro hne
    unfold Screen.set_rotation
    rw [if_pos hne]
    split <;> rfl
  · intro hne
    unfold Screen.set_position
    rw [if_pos hne]
    split <;> rfl
  · intro r hen hne
    have hset1 : s.set_resolution r true = (.ok (), stagedRes s r) := by
      unfold Screen.set_resolution
      rw [if_neg (show ¬(s.is_enabled = false ∧
          s.settings.change_table.is_enabled = false) by
        simp [Screen.is_enabled, hen]), if_pos hne,
        if_neg (show ¬(true = false ∧ r ∉ s.available_resolutions) by
          simp)]
    rw [hset1]
    unfold Screen.set_resolution
    repeat' split
    all_goals rfl

/-- Witness for C3 as amended, at HDMI2: disabling then re-enabling
clears the enabled dirty flag, while rotating left and back leaves the
rotation dirty flag set. -/
theorem c3_amended_dirty_tracking_witness :
    ((hdmi2.set_is_enabled false).set_is_enabled
      true).settings.change_table.is_enabled = false
    ∧ ((hdmi2.set_rotation (some 90)).set_rotation
        (some 0)).settings.change_table.rotation = true :=
  ⟨(c3_amended_dirty_tracking hdmi2 false false (some 90) none).1,
    (c3_amended_dirty_tracking hdmi2 false false (some 90) none).2.2.1
      (by decide)⟩

/-- Counterexample to claim C5: requesting the resolution the screen
already has — a member of `supported_modes` — succeeds but is a no-op,
and the subsequent `build_cmd` reports no pending changes instead of a
command containing `--mode`. -/
theorem c5_cex_current_resolution_noop :
    (1920, 1080) ∈ hdmi2.available_resolutions
    ∧ (hdmi2.set_resolution (1920, 1080) false).1 = .ok ()
    ∧ ((hdmi2.set_resolution (1920, 1080) false).2.build_cmd).1 =
        .ok none :=
  ⟨by decide, rfl, rfl⟩

/-- Claim C5 as amended: on an enabled, named screen, for a requested
resolution that differs from the staged one: a supported resolution is
accepted and the next `build_cmd` (when its rotation and position
entries, if dirty, are resolvable) emits `--mode <w>x<h>` right after
the base; an unsupported resolution is rejected with the `ValueError`
of `check_resolution`, the screen left exactly as it was. -/
theorem c5_amended_set_resolution (s : Screen) (r : Nat × Nat)
    (hn : s.name ≠ "") (hen : s.settings.is_enabled = true)
    (hne : r ≠ s.settings.resolution)
    (hrot : s.settings.change_table.rotation = true →
      ∃ n, by_direction s.settings.rotation = some n ∧ n ≠ "")
    (hpos : s.settings.change_table.position = true →
      ∃ rel rel_to, s.settings.position = some (rel, rel_to) ∧
        (by_position rel).isSome) :
    (r ∈ s.available_resolutions →
      (s.set_resolution r false).1 = .ok ()
      ∧ ∃ suffix, ((s.set_resolution r false).2.build_cmd).1 =
          .ok (some (["xrandr", "--output", s.name, "--mode", fmtRes r]
            ++ suffix)))
    ∧ (r ∉ s.available_resolutions →
      (s.set_resolution r false).1 =
        .error (.valueError "Requested resolution is not supported")
      ∧ (s.set_resolution r false).2 = s) := by
  have hgate : ¬(s.is_enabled = false ∧
      s.settings.change_table.is_enabled = false) := by
    simp [Screen.is_enabled, hen]
  constructor
  · intro hmem
    have hset : s.set_resolution r false = (.ok (), stagedRes s r) := by
      unfold Screen.set_resolution
      rw [if_neg hgate, if_pos hne,
        if_neg (show ¬(false = false ∧ r ∉ s.available_resolutions) by
          simp [hmem])]
    rw [hset]
    refine ⟨rfl, ?_⟩
    obtain ⟨t0, ht0⟩ := headCmd_mode (stagedRes s r) hen rfl
    obtain ⟨t1, ht1⟩ := rotStep_appends (stagedRes s r)
      (headCmd (stagedRes s r)) hrot
    obtain ⟨t2, ht2⟩ := posStep_appends (stagedRes s r)
      (headCmd (stagedRes s r) ++ t1) hpos
    refine ⟨t0 ++ t1 ++ t2, ?_⟩
    rw [build_cmd_not_off_ok (stagedRes s r)
      (by simp [stagedRes, anyChanged]) hn
      (by simp [stagedRes, Screen.is_enabled, hen]) _ _ ht1 ht2, ht0]
    simp [stagedRes]
  · intro hmem
    unfold Screen.set_resolution
    rw [if_neg hgate, if_pos hne,
      if_pos (show (false = false ∧ r ∉ s.available_resolutions) from
        ⟨rfl, hmem⟩)]
    exact ⟨rfl, rfl⟩

/-- Witness for C5 as amended, at HDMI2: the supported 1280x720 is
staged and compiles to a `--mode 1280x720` command; the unsupported
999x999 raises the check error and leaves the screen untouched. -/
theorem c5_amended_set_resolution_witness :
    (hdmi2.set_resolution (1280, 720) false).1 = .ok ()
    ∧ (∃ suffix, ((hdmi2.set_resolution (1280, 720) false).2.build_cmd).1 =
        .ok (some (["xrandr", "--output", "HDMI2", "--mode",
          fmtRes (1280, 720)] ++ suffix)))
    ∧ (hdmi2.set_resolution (999, 999) false).1 =
        .error (.valueError "Requested resolution is not supported")
    ∧ (hdmi2.set_resolution (999, 999) false).2 = hdmi2 := by
  have h1 := (c5_amended_set_resolution hdmi2 (1280, 720) (by decide) rfl
    (by decide) (fun h => absurd h (by decide))
    (fun h => absurd h (by decide))).1 (by decide)
  have h2 := (c5_amended_set_resolution hdmi2 (999, 999) (by decide) rfl
    (by decide) (fun h => absurd h (by decide))
    (fun h => absurd h (by decide))).2 (by decide)
  exact ⟨h1.1, h1.2, h2.1, h2.2⟩

/-- Counterexample to claim C6: on the disabled screen LVDS1, with its
enabled flag clean, the rotation and position setters do not fail — they
stage the values and set the dirty flags (only the resolution setter
enforces the disabled-screen check). -/
theorem c6_cex_rotation_stages_while_off :
    lvds1Off.settings.is_enabled = false
    ∧ lvds1Off.settings.change_table.is_enabled = false
    ∧ (lvds1Off.set_rotation (some 90)).settings.rotation = some 90
    ∧ (lvds1Off.set_rotation (some 90)).settings.change_table.rotation =
        true
    ∧ (lvds1Off.set_position
        (some (1, "HDMI2"))).settings.change_table.position = true :=
  ⟨rfl, rfl, rfl, rfl, rfl⟩

/-- Claim C6 as amended: on a screen that is disabled and not being
re-enabled, only the resolution setter fails (with the `ValueError`
saying the screen is off) and leaves the screen unchanged; the rotation
and position setters have no enablement constraint and stage any
differing value, marking it dirty. -/
theorem c6_amended_disabled_setters (s : Screen) (r : Nat × Nat)
    (c : Bool) (d : Option Int) (pos : Option (Int × String))
    (h1 : s.settings.is_enabled = false)
    (h2 : s.settings.change_table.is_enabled = false) :
    (s.set_resolution r c).1 = .error (.valueError "The Screen is off")
    ∧ (s.set_resolution r c).2 = s
    ∧ (d ≠ s.settings.rotation →
        (s.set_rotation d).settings.rotation = d
        ∧ (s.set_rotation d).settings.change_table.rotation = true)
    ∧ (pos ≠ s.settings.position →
        (s.set_position pos).settings.position = pos
        ∧ (s.set_position pos).settings.change_table.position = true) := by
  refine ⟨?_, ?_, ?_, ?_⟩
  · simp [Screen.set_resolution, Screen.is_enabled, h1, h2]
  · simp [Screen.set_resolution, Screen.is_enabled, h1, h2]
  · intro hne
    simp [Screen.set_rotation, hne]
  · intro hne
    simp [Screen.set_position, hne]

/-- Witness for C6 as amended, at disabled LVDS1: the resolution setter
raises and changes nothing; the rotation setter stages 90 degrees. -/
theorem c6_amended_disabled_setters_witness :
    (lvds1Off.set_resolution (1920, 1080) false).1 =
      .error (.valueError "The Screen is off")
    ∧ (lvds1Off.set_resolution (1920, 1080) false).2 = lvds1Off
    ∧ (lvds1Off.set_rotation (some 90)).settings.change_table.rotation =
        true := by
  have h := c6_amended_disabled_setters lvds1Off (1920, 1080) false
    (some 90) none rfl rfl
  exact ⟨h.1, h.2.1, (h.2.2.1 (by decide)).2⟩

/-- Counterexample to claim C7: staging a position with an empty
relative-screen name does not raise — the pair is stored verbatim and
the position dirty flag is set. -/
theorem c7_cex_empty_relative_accepted :
    (hdmi2.set_position (some (2, ""))).settings.position = some (2, "")
    ∧ (hdmi2.set_position (some (2, ""))).settings.change_table.position =
        true :=
  ⟨rfl, rfl⟩

/-- Claim C7 as amended: the position setter validates nothing — any
pair differing from the staged position, an empty relative-screen name
included, is stored and marked dirty, and no error is raised at staging
time. -/
theorem c7_amended_set_position (s : Screen) (rel : Int)
    (rel_to : String) (h : some (rel, rel_to) ≠ s.settings.position) :
    (s.set_position (some (rel, rel_to))).settings.position =
      some (rel, rel_to)
    ∧ (s.set_position (some (rel, rel_to))).settings.change_table.position =
        true := by
  simp [Screen.set_position, h]

/-- Witness for C7 as amended: an empty relative name on HDMI2 is
accepted and staged. -/
theorem c7_amended_set_position_witness :
    (hdmi2.set_position (some (1, ""))).settings.position = some (1, "")
    ∧ (hdmi2.set_position (some (1, ""))).settings.change_table.position =
        true :=
  c7_amended_set_position hdmi2 1 "" (by decide)

/-- Claim C8: on a named screen that stays enabled and whose rotation
entry is dirty, a staged rotation that the closed table resolves makes
`build_cmd` append `--rotate <name>` (provided a dirty position entry is
itself resolvable); a staged rotation with no entry in the table makes
`build_cmd` fail — the dict lookup raises (`KeyError`), which is the
InvalidArgument condition of the specification (the in-code `ValueError`
guard behind it is unreachable, every table value being non-empty). -/
theorem c8_rotation_compile (s : Screen)
    (hn : s.name ≠ "") (hen : s.settings.is_enabled = true)
    (hdirty : s.settings.change_table.rotation = true) :
    (∀ n, by_direction s.settings.rotation = some n →
      (s.settings.change_table.position = true →
        ∃ rel rel_to, s.settings.position = some (rel, rel_to) ∧
          (by_position rel).isSome) →
      ∃ pre tail, (s.build_cmd).1 =
        .ok (some (pre ++ ["--rotate", n] ++ tail)))
    ∧ (by_direction s.settings.rotation = none →
      (s.build_cmd).1 = .error .keyError) := by
  have hany : anyChanged s.settings.change_table = true := by
    simp [anyChanged, hdirty]
  have hto : (s.settings.change_table.is_enabled && !s.is_enabled) =
      false := by
    simp [Screen.is_enabled, hen]
  constructor
  · intro n hsome hpos
    obtain ⟨t2, ht2⟩ := posStep_appends s (headCmd s ++ ["--rotate", n])
      hpos
    refine ⟨headCmd s, t2, ?_⟩
    rw [build_cmd_not_off_ok s hany hn hto _ _
      (rotStep_resolved s (headCmd s) n hdirty hsome
        (by_direction_ne_empty _ n hsome)) ht2]
  · intro hnone
    exact build_cmd_rot_err s hany hn hto .keyError
      (rotStep_unresolved s (headCmd s) hdirty hnone)

/-- Witness for C8: HDMI2 rotated left compiles with `--rotate left`;
HDMI2 with its rotation staged to `None` (no table entry) makes
`build_cmd` raise the lookup error. -/
theorem c8_rotation_compile_witness :
    (∃ pre tail, ((hdmi2.set_rotation (some 90)).build_cmd).1 =
      .ok (some (pre ++ ["--rotate", "left"] ++ tail)))
    ∧ ((hdmi2.set_rotation none).build_cmd).1 = .error .keyError :=
  ⟨(c8_rotation_compile (hdmi2.set_rotation (some 90)) (by decide) rfl
      rfl).1 "left" rfl (fun h => absurd h (by decide)),
    (c8_rotation_compile (hdmi2.set_rotation none) (by decide) rfl
      rfl).2 rfl⟩

end Pyrandr
